import Mathlib

/-!
Verification of the recording-session state machine of the gnome-speech2text
shell extension. The definitions below are a shallow embedding of
`src/lib/recordingStateManager.js` (class `RecordingStateManager`), of the
service-liveness monitoring in `dbusManager.js` together with
`UICoordinator.forceReset`, and of the transcription-result dispatch in
`RecordingController.handleTranscriptionReady`.

Modelling conventions: JavaScript `null`-able fields become `Option`;
the `handledSignals` `Set` of string keys becomes a `List String` with
membership tests; asynchronous D-Bus calls become explicit parameters
carrying the (unmodelled) remote outcome; `Meta.is_wayland_compositor()`
is an environment read, passed as a `Bool` parameter at each call site
that reads it, exactly where the source reads it. JavaScript truthiness
tests on the recording id (`if (!this.currentRecordingId)`) are modelled
by `truthyId`, under which both `null` and the empty string are falsy.
-/

namespace Speech2Text

/-- The `recordingState` field: "idle, recording, processing, completed, error"
(comment at `recordingStateManager.js` line 15). -/
inductive RecState where
  | idle
  | recording
  | processing
  | completed
  | error
deriving DecidableEq, Repr

/-- The settings snapshot stored in `lastRecordingSettings` at
`startRecording` (lines 89-92): recording duration and the configured
post-recording action. -/
structure RecSettings where
  recordingDuration : Int
  postRecordingAction : String
deriving DecidableEq, Repr

/-- The slice of a recording dialog observed by the state manager: its
`currentPhase` string and which duck-typed methods it exposes
(`typeof this.recordingDialog.showPreview === "function"` checks). -/
structure Dialog where
  currentPhase : String
  hasShowProcessing : Bool
  hasShowPreview : Bool
deriving DecidableEq, Repr

/-- The mutable fields of `RecordingStateManager` (constructor, lines 8-16). -/
structure RSM where
  currentRecordingId : Option String
  recordingDialog : Option Dialog
  lastRecordingSettings : Option RecSettings
  isCancelled : Bool
  handledSignals : List String
  recordingState : RecState
deriving DecidableEq, Repr

/-- The constructor state (lines 8-16): no id, no dialog, no settings,
not cancelled, empty signal record, idle. -/
def initialRSM : RSM :=
  { currentRecordingId := none
    recordingDialog := none
    lastRecordingSettings := none
    isCancelled := false
    handledSignals := []
    recordingState := RecState.idle }

/-- JavaScript truthiness of the recording id: `null` and `""` are falsy. -/
def truthyId : Option String → Bool
  | none => false
  | some s => !(s == "")

/-- The duplicate-suppression key, `` `${recordingId}:${signalType}` ``
(line 58). -/
def signalKey (recordingId signalType : String) : String :=
  recordingId ++ ":" ++ signalType

/-- `RecordingStateManager._validateSignal` (lines 30-68): the Signal Guard.
Four sequential guards (cancelled, id mismatch, state not allowed, duplicate
key); on passing all four, the key is added to `handledSignals` and the call
reports acceptance. Returns the accept flag together with the updated
manager state. -/
def validateSignal (s : RSM) (recordingId signalType : String)
    (expectedStates : List RecState) : Bool × RSM :=
  if s.isCancelled then (false, s)
  else if some recordingId ≠ s.currentRecordingId then (false, s)
  else if s.recordingState ∉ expectedStates then (false, s)
  else if signalKey recordingId signalType ∈ s.handledSignals then (false, s)
  else (true, { s with handledSignals := signalKey recordingId signalType :: s.handledSignals })

/-- The Wayland fallback computed in `startRecording` (lines 94-107): on
Wayland, `type_and_copy` becomes `copy_only` and `type_only` becomes
`preview`; otherwise the configured action is used unchanged. -/
def resolveEffectiveAction (isWayland : Bool) (postRecordingAction : String) : String :=
  if isWayland ∧ (postRecordingAction = "type_only" ∨ postRecordingAction = "type_and_copy")
  then (if postRecordingAction = "type_and_copy" then "copy_only" else "preview")
  else postRecordingAction

/-- The arguments of the remote start request issued at
`startRecording` lines 118-121: the duration and the resolved effective
action. -/
structure StartRequest where
  recordingDuration : Int
  action : String
deriving DecidableEq, Repr

/-- The start request that `startRecording` sends for given settings in a
given environment (lines 84-121). -/
def startRequestOf (settings : RecSettings) (isWayland : Bool) : StartRequest :=
  { recordingDuration := settings.recordingDuration
    action := resolveEffectiveAction isWayland settings.postRecordingAction }

/-- `RecordingStateManager.startRecording` (lines 70-138). `dbusPresent`
models `this.dbusManager` being non-null; `dbusStartResult` models the
outcome of the awaited remote call (`none` = the call threw). Note the
source clears `isCancelled`/`handledSignals` and stores
`lastRecordingSettings` before the dbus null check, so a failed start may
still have performed those writes. -/
def startRecording (s : RSM) (settings : RecSettings) (_isWayland : Bool)
    (dbusPresent : Bool) (dbusStartResult : Option String) : Bool × RSM :=
  if truthyId s.currentRecordingId ∨ s.recordingState ≠ RecState.idle then (false, s)
  else
    let s1 := { s with isCancelled := false, handledSignals := [] }
    let stored : RecSettings :=
      { recordingDuration := settings.recordingDuration
        postRecordingAction := settings.postRecordingAction }
    let s2 := { s1 with lastRecordingSettings := some stored }
    if ¬ dbusPresent then (false, s2)
    else
      match dbusStartResult with
      | none => (false, { s2 with recordingState := RecState.idle, currentRecordingId := none })
      | some recordingId =>
          (true, { s2 with currentRecordingId := some recordingId
                           recordingState := RecState.recording })

/-- `RecordingStateManager.stopRecording` (lines 140-174). `remoteStopOk`
models whether the awaited `dbusManager.stopRecording` call succeeded.
On success the state becomes processing; on failure it becomes error; the
recording id is kept in both branches. -/
def stopRecording (s : RSM) (remoteStopOk : Bool) : Bool × RSM :=
  if ¬ truthyId s.currentRecordingId ∨ s.recordingState ≠ RecState.recording then (false, s)
  else if remoteStopOk then (true, { s with recordingState := RecState.processing })
  else (false, { s with recordingState := RecState.error })

/-- First half of `RecordingStateManager.cancelRecording` (lines 236-241):
the cancellation flag is set and the state forced to idle BEFORE the
remote cancel call is issued. -/
def cancelMark (s : RSM) : RSM :=
  { s with isCancelled := true, recordingState := RecState.idle }

/-- Second half of `cancelRecording` (lines 252-265), run after the awaited
remote cancel call (whose failure is swallowed): clear the recording id and
close the dialog. -/
def cancelFinish (s : RSM) : RSM :=
  { s with currentRecordingId := none, recordingDialog := none }

/-- `RecordingStateManager.cancelRecording` (lines 225-268) as a whole. -/
def cancelRecording (s : RSM) : Bool × RSM :=
  if ¬ truthyId s.currentRecordingId then (false, s)
  else (true, cancelFinish (cancelMark s))

/-- `RecordingStateManager.handleRecordingCompleted` (lines 176-223). -/
def handleRecordingCompleted (s : RSM) (recordingId : String) : RSM :=
  match validateSignal s recordingId "completed" [RecState.recording] with
  | (false, s1) => s1
  | (true, s1) =>
    match s1.recordingDialog with
    | none => { s1 with recordingState := RecState.processing }
    | some d =>
        if d.currentPhase = "preview" ∨ d.currentPhase = "closed" then s1
        else { s1 with recordingState := RecState.processing }

/-- JavaScript `text.trim()`: strip whitespace from both ends (computable
model used in place of `String.trim`). -/
def jsTrim (text : String) : String :=
  String.mk (((text.data.dropWhile Char.isWhitespace).reverse.dropWhile
    Char.isWhitespace).reverse)

/-- The result object of `handleTranscriptionReady`: an action tag and an
optional text payload. -/
structure TranscriptionResult where
  action : String
  text : Option String
deriving DecidableEq, Repr

/-- The preview decision of `handleTranscriptionReady` (lines 337-341):
preview is shown for the configured "preview" action, or on Wayland for
the type-based actions. -/
def shouldShowPreviewFor (postRecordingAction : String) (isWayland : Bool) : Bool :=
  postRecordingAction == "preview" ||
    (isWayland && (postRecordingAction == "type_only" || postRecordingAction == "type_and_copy"))

/-- `RecordingStateManager.handleTranscriptionReady` (lines 285-394).
`settingsAction` models `settings.get_string("post-recording-action")`,
the fallback read when `lastRecordingSettings` is absent or stores a falsy
action; `isWayland` is the value of `Meta.is_wayland_compositor()` AT THIS
CALL (line 327). Returns the result object and the updated state. -/
def handleTranscriptionReady (s : RSM) (recordingId text settingsAction : String)
    (isWayland : Bool) : TranscriptionResult × RSM :=
  match validateSignal s recordingId "transcription" [RecState.processing] with
  | (false, s1) => ({ action := "ignored", text := none }, s1)
  | (true, s1) =>
    if text = "" ∨ (jsTrim text).length = 0 then
      let s2 := { s1 with recordingState := RecState.completed }
      let s3 := { s2 with recordingDialog := none, currentRecordingId := none }
      ({ action := "ignored", text := none }, { s3 with recordingState := RecState.idle })
    else
      let postRecordingAction :=
        match s1.lastRecordingSettings with
        | some st => if st.postRecordingAction = "" then settingsAction
                     else st.postRecordingAction
        | none => settingsAction
      if shouldShowPreviewFor postRecordingAction isWayland then
        let s2 := { s1 with recordingState := RecState.completed }
        match s2.recordingDialog with
        | some d =>
            if d.hasShowPreview then
              ({ action := "preview", text := some text },
               { s2 with currentRecordingId := none })
            else
              ({ action := "createPreview", text := some text },
               { s2 with currentRecordingId := none, recordingState := RecState.idle })
        | none =>
            ({ action := "createPreview", text := some text },
             { s2 with currentRecordingId := none, recordingState := RecState.idle })
      else
        let s2 := { s1 with recordingState := RecState.completed }
        ({ action := "service_handled", text := some text },
         { s2 with recordingDialog := none, currentRecordingId := none
                   recordingState := RecState.idle })

/-- `RecordingStateManager.handleRecordingError` (lines 396-432). On a
validated error signal the state is set to error (line 412), the error is
displayed, then the id is cleared (line 428) and the state reset to idle
(line 431) - all within the same synchronous handler. -/
def handleRecordingError (s : RSM) (recordingId _errorMessage : String) : RSM :=
  match validateSignal s recordingId "error" [RecState.recording, RecState.processing] with
  | (false, s1) => s1
  | (true, s1) =>
    let s2 := { s1 with recordingState := RecState.error }
    let s3 := { s2 with currentRecordingId := none }
    { s3 with recordingState := RecState.idle }

/-- `RecordingStateManager.cleanup` (lines 434-463): reset every field and
close the dialog. -/
def cleanup (s : RSM) : RSM :=
  { s with currentRecordingId := none
           isCancelled := false
           lastRecordingSettings := none
           handledSignals := []
           recordingState := RecState.idle
           recordingDialog := none }

/-- `RecordingStateManager.setRecordingDialog` (lines 270-275). -/
def setRecordingDialog (s : RSM) (d : Option Dialog) : RSM :=
  { s with recordingDialog := d }

/-! ### Operation steps and reachability

One user command or delivered notification, with the outcomes of the
remote calls it awaits carried as data. `applyStep` projects each
operation to its effect on the manager state; `Reachable` is the set of
states obtainable from the constructor state by any such sequence. -/

/-- One operation on the `RecordingStateManager`: a user command
(start/stop/cancel/cleanup/setDialog) or a delivered remote signal
(completed/transcription/error). -/
inductive Step where
  | start (settings : RecSettings) (isWayland dbusPresent : Bool)
      (dbusStartResult : Option String)
  | stop (remoteStopOk : Bool)
  | cancel
  | completed (recordingId : String)
  | transcription (recordingId text settingsAction : String) (isWayland : Bool)
  | errorSignal (recordingId errorMessage : String)
  | cleanupCall
  | setDialog (d : Option Dialog)

/-- The state after performing one operation. -/
def applyStep (s : RSM) : Step → RSM
  | Step.start settings w p r => (startRecording s settings w p r).2
  | Step.stop ok => (stopRecording s ok).2
  | Step.cancel => (cancelRecording s).2
  | Step.completed rid => handleRecordingCompleted s rid
  | Step.transcription rid text sa w => (handleTranscriptionReady s rid text sa w).2
  | Step.errorSignal rid msg => handleRecordingError s rid msg
  | Step.cleanupCall => cleanup s
  | Step.setDialog d => setRecordingDialog s d

/-- States reachable from the constructor state by user commands and
delivered notifications. -/
inductive Reachable : RSM → Prop where
  | refl : Reachable initialRSM
  | step (s : RSM) (st : Step) : Reachable s → Reachable (applyStep s st)

/-! ### Liveness monitoring and UI reset

Embedding of `DBusManager._setupServiceMonitoring` (dbusManager variant
with the `notify::g-name-owner` monitor) and of `UICoordinator`
(`uiCoordinator.js`): the extension wires
`dbusManager.setServiceDiedCallback(() => uiCoordinator.forceReset())`,
so a lost name owner forces the UI coordinator back to IDLE. -/

/-- The five `State` constants of `uiCoordinator.js` (IDLE, RECORDING,
PROCESSING, PREVIEW, ERROR). -/
inductive UIState where
  | idle
  | recording
  | processing
  | preview
  | error
deriving DecidableEq, Repr

/-- The mutable fields of `UICoordinator` read or written by
`forceReset`: session identifiers, payload texts, timing data, the
countdown timer source and whether the modal dialog is open. -/
structure UICoordinatorState where
  currentState : UIState
  currentRecordingId : Option String
  transcribedText : String
  errorMessage : String
  recordingStartTime : Option Int
  maxDuration : Int
  recordingTimerInterval : Option Nat
  modalDialogOpen : Bool
deriving DecidableEq, Repr

/-- `UICoordinator.forceReset` (uiCoordinator, lines 66-89): remove the
countdown timer if any, close the modal dialog if open, clear the session
fields, and transition to IDLE. -/
def forceReset (u : UICoordinatorState) : UICoordinatorState :=
  let u1 := if u.recordingTimerInterval ≠ none
            then { u with recordingTimerInterval := none } else u
  let u2 := if u1.modalDialogOpen then { u1 with modalDialogOpen := false } else u1
  { u2 with currentRecordingId := none
            transcribedText := ""
            errorMessage := ""
            recordingStartTime := none
            maxDuration := 0
            currentState := UIState.idle }

/-- JavaScript falsiness of the `g_name_owner` property: `null` or the
empty string. -/
def ownerFalsy : Option String → Bool
  | none => true
  | some o => o == ""

/-- The `notify::g-name-owner` handler of
`DBusManager._setupServiceMonitoring` (dbusManager, lines 213-237),
composed with the service-died callback installed in `extension.enable`
(`() => this.uiCoordinator.forceReset()`): when the owner is lost the UI
coordinator is force-reset, otherwise nothing changes. -/
def onNameOwnerChanged (owner : Option String) (u : UICoordinatorState) :
    UICoordinatorState :=
  if ownerFalsy owner then forceReset u else u

/-! ### Transcription-result dispatch in the controller -/

/-- The extension-local follow-up action that
`RecordingController.handleTranscriptionReady` performs on a result. -/
inductive ControllerAction where
  | noAction
  | showPreviewDialog (text : Option String)
deriving DecidableEq, Repr

/-- The dispatch on `result.action` in
`RecordingController.handleTranscriptionReady` (recordingController,
lines 809-843): only a `createPreview` result makes the controller build
a preview dialog with the returned text; `service_handled`, `preview` and
`ignored` results cause no extension-local text handling. -/
def controllerTranscriptionDispatch (result : TranscriptionResult) : ControllerAction :=
  if result.action == "service_handled" then ControllerAction.noAction
  else if result.action == "preview" then ControllerAction.noAction
  else if result.action == "createPreview" then ControllerAction.showPreviewDialog result.text
  else ControllerAction.noAction

/-- A live recording-state manager: one accepted session `r1`, no dialog,
nothing handled yet. -/
def sampleRecording : RSM :=
  { initialRSM with currentRecordingId := some "r1"
                    recordingState := RecState.recording }

/-- The invariant actually maintained by the code: recording and
processing states always hold a recording id, and a recording id is only
held in the recording, processing or error states (the error state may
retain it after a failed stop request). -/
def sessionInvariant (s : RSM) : Prop :=
  ((s.recordingState = RecState.recording ∨ s.recordingState = RecState.processing) →
    s.currentRecordingId ≠ none) ∧
  (s.currentRecordingId ≠ none →
    (s.recordingState = RecState.recording ∨ s.recordingState = RecState.processing ∨
     s.recordingState = RecState.error))

/-- The state after a successful start of session `r1` from the
constructor state. -/
def startedState : RSM :=
  (startRecording initialRSM
    { recordingDuration := 60, postRecordingAction := "preview" } false true (some "r1")).2

/-- The state after the remote stop request for session `r1` failed. -/
def stopFailedState : RSM := (stopRecording startedState false).2

/-- A session started on Wayland with configured action `type_and_copy`;
the start request carried the downgraded action `copy_only`, while the
stored settings keep the configured `type_and_copy`. -/
def tacStarted : RSM :=
  (startRecording initialRSM
    { recordingDuration := 60, postRecordingAction := "type_and_copy" } true true (some "r1")).2

/-- The same session after its completed notification: processing. -/
def tacProcessing : RSM := handleRecordingCompleted tacStarted "r1"

/-! ### Guard characterization -/

/-- The Signal Guard as a single decision: it accepts exactly when not
cancelled, the id matches, the state is allowed and the key is new; the
state is changed (the key recorded) exactly on accept. -/
theorem validateSignal_eq (s : RSM) (rid ty : String) (allowed : List RecState) :
    validateSignal s rid ty allowed =
      if s.isCancelled = false ∧ some rid = s.currentRecordingId ∧
         s.recordingState ∈ allowed ∧ signalKey rid ty ∉ s.handledSignals
      then (true, { s with handledSignals := signalKey rid ty :: s.handledSignals })
      else (false, s) := by
  unfold validateSignal
  split_ifs <;> simp_all

/-- A rejected signal never changes the manager state. -/
theorem validateSignal_reject_eq (s : RSM) (rid ty : String) (allowed : List RecState)
    (h : (validateSignal s rid ty allowed).1 = false) :
    (validateSignal s rid ty allowed).2 = s := by
  rw [validateSignal_eq] at *
  split_ifs at h ⊢ <;> simp_all

/-- Delivering the same completed signal twice changes nothing the second
time: the double application of the handler equals the single one. -/
theorem handleRecordingCompleted_idem (s : RSM) (rid : String) :
    handleRecordingCompleted (handleRecordingCompleted s rid) rid =
      handleRecordingCompleted s rid := by
  by_cases h : (s.isCancelled = false ∧ some rid = s.currentRecordingId ∧
      s.recordingState ∈ [RecState.recording] ∧
      signalKey rid "completed" ∉ s.handledSignals)
  · have hrec : s.recordingState = RecState.recording := by
      rcases h with ⟨-, -, hmem, -⟩
      simpa using hmem
    rcases hd : s.recordingDialog with _ | d
    · simp only [handleRecordingCompleted, validateSignal_eq, if_pos h, hd]
      simp [validateSignal_eq, h.1, h.2.1, hd]
    · simp only [handleRecordingCompleted, validateSignal_eq, if_pos h, hd]
      by_cases hp : d.currentPhase = "preview" ∨ d.currentPhase = "closed"
      · simp only [if_pos hp]
        simp [validateSignal_eq, hd, hp]
      · simp only [if_neg hp]
        simp [validateSignal_eq, h.1, h.2.1, hd, hp]
  · simp only [handleRecordingCompleted, validateSignal_eq, if_neg h]

/-! ### Claim theorems -/

/-- Claim C1: the Signal Guard accepts a notification if and only if the
cancelled flag is false, the notification id equals the current recording
id, the current state is in the allowed source-state set, and the
`(sessionId, kind)` key is not yet in the processed-notification record;
exactly on accept the key is recorded (the handlers then run on the
already-updated record), a rejected signal changes no state, a duplicate
of an accepted signal is rejected with no state change, and delivering
the same completed notification twice yields exactly one transition. -/
theorem C1_signal_guard (s : RSM) (rid ty : String) (allowed : List RecState) :
    ((validateSignal s rid ty allowed).1 = true ↔
      (s.isCancelled = false ∧ some rid = s.currentRecordingId ∧
       s.recordingState ∈ allowed ∧ signalKey rid ty ∉ s.handledSignals)) ∧
    ((validateSignal s rid ty allowed).1 = true →
      (validateSignal s rid ty allowed).2 =
        { s with handledSignals := signalKey rid ty :: s.handledSignals }) ∧
    ((validateSignal s rid ty allowed).1 = false →
      (validateSignal s rid ty allowed).2 = s) ∧
    (∀ allowed2, (validateSignal s rid ty allowed).1 = true →
      validateSignal (validateSignal s rid ty allowed).2 rid ty allowed2 =
        (false, (validateSignal s rid ty allowed).2)) ∧
    handleRecordingCompleted (handleRecordingCompleted s rid) rid =
      handleRecordingCompleted s rid := by
  refine ⟨?_, ?_, ?_, ?_, handleRecordingCompleted_idem s rid⟩
  · rw [validateSignal_eq]
    split_ifs with h <;> simp [h]
  · rw [validateSignal_eq]
    split_ifs with h <;> simp [h]
  · exact validateSignal_reject_eq s rid ty allowed
  · intro allowed2 ht
    rw [validateSignal_eq] at ht
    by_cases h : (s.isCancelled = false ∧ some rid = s.currentRecordingId ∧
        s.recordingState ∈ allowed ∧ signalKey rid ty ∉ s.handledSignals)
    · simp only [validateSignal_eq, if_pos h]
      simp
    · rw [if_neg h] at ht
      simp at ht

/-- Witness for C1 at a concrete live state: the completed signal for the
current session is accepted, and its duplicate is rejected without any
state change. -/
theorem C1_signal_guard_witness :
    (validateSignal sampleRecording "r1" "completed" [RecState.recording]).1 = true ∧
    validateSignal (validateSignal sampleRecording "r1" "completed" [RecState.recording]).2
        "r1" "completed" [RecState.recording] =
      (false, (validateSignal sampleRecording "r1" "completed" [RecState.recording]).2) := by
  have h := C1_signal_guard sampleRecording "r1" "completed" [RecState.recording]
  have hacc : (validateSignal sampleRecording "r1" "completed" [RecState.recording]).1 = true :=
    h.1.mpr ⟨rfl, rfl, by decide, by simp [sampleRecording, initialRSM]⟩
  exact ⟨hacc, h.2.2.2.1 [RecState.recording] hacc⟩

/-- On a cancelled manager state every signal handler is a no-op: the
completed, transcription and error handlers all leave the state unchanged
(and the transcription handler reports the signal ignored). -/
theorem cancelled_blocks (s : RSM) (h : s.isCancelled = true) :
    (∀ rid, handleRecordingCompleted s rid = s) ∧
    (∀ rid msg, handleRecordingError s rid msg = s) ∧
    (∀ rid text sa w, handleTranscriptionReady s rid text sa w =
      ({ action := "ignored", text := none }, s)) := by
  refine ⟨fun rid => ?_, fun rid msg => ?_, fun rid text sa w => ?_⟩
  · simp [handleRecordingCompleted, validateSignal_eq, h]
  · simp [handleRecordingError, validateSignal_eq, h]
  · simp [handleTranscriptionReady, validateSignal_eq, h]

/-- Claim C2: `cancelRecording` sets the cancelled flag before issuing the
remote cancel request and before clearing the recording id (`cancelMark`
is that first half); from that point on, and in particular after the
whole call completes, every delivered notification - completed,
transcription ready, or error - is rejected by the cancellation guard
irrespective of the current state and produces no state change. -/
theorem C2_cancellation_dominance (s : RSM) (h : truthyId s.currentRecordingId = true) :
    (cancelRecording s).1 = true ∧
    (cancelMark s).isCancelled = true ∧
    (∀ rid, handleRecordingCompleted (cancelMark s) rid = cancelMark s) ∧
    (∀ rid msg, handleRecordingError (cancelMark s) rid msg = cancelMark s) ∧
    (∀ rid text sa w, handleTranscriptionReady (cancelMark s) rid text sa w =
      ({ action := "ignored", text := none }, cancelMark s)) ∧
    (∀ rid, handleRecordingCompleted (cancelRecording s).2 rid = (cancelRecording s).2) ∧
    (∀ rid msg, handleRecordingError (cancelRecording s).2 rid msg = (cancelRecording s).2) ∧
    (∀ rid text sa w, handleTranscriptionReady (cancelRecording s).2 rid text sa w =
      ({ action := "ignored", text := none }, (cancelRecording s).2)) := by
  have hmark : (cancelMark s).isCancelled = true := rfl
  have hsnd : (cancelRecording s).2.isCancelled = true := by
    simp [cancelRecording, h, cancelFinish, cancelMark]
  have hb1 := cancelled_blocks (cancelMark s) hmark
  have hb2 := cancelled_blocks (cancelRecording s).2 hsnd
  refine ⟨by simp [cancelRecording, h], hmark, hb1.1, hb1.2.1, hb1.2.2,
    hb2.1, hb2.2.1, hb2.2.2⟩

/-- Witness for C2 at a concrete live state: after cancelling session `r1`,
its transcription-ready notification is reported ignored and changes
nothing. -/
theorem C2_cancellation_dominance_witness :
    (cancelRecording sampleRecording).1 = true ∧
    handleTranscriptionReady (cancelRecording sampleRecording).2 "r1" "hello" "preview" false =
      ({ action := "ignored", text := none }, (cancelRecording sampleRecording).2) := by
  have h := C2_cancellation_dominance sampleRecording (by decide)
  exact ⟨h.1, h.2.2.2.2.2.2.2 "r1" "hello" "preview" false⟩

/-! ### The session-id / state invariant -/

theorem sessionInvariant_start (s : RSM) (settings : RecSettings)
    (w p : Bool) (r : Option String) (ih : sessionInvariant s) :
    sessionInvariant (startRecording s settings w p r).2 := by
  unfold startRecording
  by_cases hg : truthyId s.currentRecordingId = true ∨ s.recordingState ≠ RecState.idle
  · simpa [hg] using ih
  · push_neg at hg
    have hidle : s.recordingState = RecState.idle := hg.2
    have hid : s.currentRecordingId = none := by
      rcases hcur : s.currentRecordingId with _ | a
      · rfl
      · rcases ih.2 (by simp [hcur]) with h1 | h1 | h1 <;> rw [hidle] at h1 <;> cases h1
    by_cases hp : p
    · rcases r with _ | rid <;>
        simp [hg.1, hidle, hid, hp, sessionInvariant, truthyId]
    · simp [hg.1, hidle, hid, hp, sessionInvariant, truthyId]

theorem sessionInvariant_stop (s : RSM) (ok : Bool) (ih : sessionInvariant s) :
    sessionInvariant (stopRecording s ok).2 := by
  unfold stopRecording
  by_cases hg : ¬ truthyId s.currentRecordingId = true ∨ s.recordingState ≠ RecState.recording
  · rw [if_pos hg]
    exact ih
  · push_neg at hg
    have hid : s.currentRecordingId ≠ none := by
      rcases hcur : s.currentRecordingId with _ | a
      · rw [hcur] at hg; simp [truthyId] at hg
      · simp
    by_cases hok : ok <;>
      simp_all [sessionInvariant]

theorem sessionInvariant_cancel (s : RSM) (ih : sessionInvariant s) :
    sessionInvariant (cancelRecording s).2 := by
  unfold cancelRecording
  by_cases hg : truthyId s.currentRecordingId = true
  · simp [hg, cancelFinish, cancelMark, sessionInvariant]
  · simpa [hg] using ih

theorem sessionInvariant_completed (s : RSM) (rid : String) (ih : sessionInvariant s) :
    sessionInvariant (handleRecordingCompleted s rid) := by
  by_cases h : (s.isCancelled = false ∧ some rid = s.currentRecordingId ∧
      s.recordingState ∈ [RecState.recording] ∧
      signalKey rid "completed" ∉ s.handledSignals)
  · have hid : s.currentRecordingId = some rid := h.2.1.symm
    have hst : s.recordingState = RecState.recording := by
      have := h.2.2.1; simpa using this
    simp only [handleRecordingCompleted, validateSignal_eq, if_pos h]
    rcases hdl : s.recordingDialog with _ | d
    · simp [sessionInvariant, hid, hst]
    · by_cases hp : d.currentPhase = "preview" ∨ d.currentPhase = "closed" <;>
        simp [sessionInvariant, hid, hst, hp]
  · simp only [handleRecordingCompleted, validateSignal_eq, if_neg h]
    exact ih

theorem sessionInvariant_transcription (s : RSM) (rid text sa : String) (w : Bool)
    (ih : sessionInvariant s) :
    sessionInvariant (handleTranscriptionReady s rid text sa w).2 := by
  by_cases h : (s.isCancelled = false ∧ some rid = s.currentRecordingId ∧
      s.recordingState ∈ [RecState.processing] ∧
      signalKey rid "transcription" ∉ s.handledSignals)
  · simp only [handleTranscriptionReady, validateSignal_eq, if_pos h]
    by_cases hempty : text = "" ∨ (jsTrim text).length = 0
    · simp [hempty, sessionInvariant]
    · simp only [if_neg hempty]
      by_cases hsp : shouldShowPreviewFor
          (match s.lastRecordingSettings with
            | some st => if st.postRecordingAction = "" then sa else st.postRecordingAction
            | none => sa) w = true
      · simp only [hsp]
        rcases hdl : s.recordingDialog with _ | d
        · simp [hdl, sessionInvariant]
        · by_cases hpv : d.hasShowPreview = true <;>
            simp [hdl, hpv, sessionInvariant]
      · simp [hsp, sessionInvariant]
  · simp only [handleTranscriptionReady, validateSignal_eq, if_neg h]
    exact ih

theorem sessionInvariant_error (s : RSM) (rid msg : String) (ih : sessionInvariant s) :
    sessionInvariant (handleRecordingError s rid msg) := by
  by_cases h : (s.isCancelled = false ∧ some rid = s.currentRecordingId ∧
      s.recordingState ∈ [RecState.recording, RecState.processing] ∧
      signalKey rid "error" ∉ s.handledSignals)
  · simp only [handleRecordingError, validateSignal_eq]
    rw [if_pos h]
    simp [sessionInvariant]
  · simp only [handleRecordingError, validateSignal_eq, if_neg h]
    exact ih

/-- Every state reachable by user commands and delivered notifications
satisfies the session-id / state invariant. -/
theorem reachable_sessionInvariant (s : RSM) (h : Reachable s) : sessionInvariant s := by
  induction h with
  | refl => exact ⟨by simp [initialRSM], by simp [initialRSM]⟩
  | step s' st _ ih =>
    cases st with
    | start settings w p r => exact sessionInvariant_start s' settings w p r ih
    | stop ok => exact sessionInvariant_stop s' ok ih
    | cancel => exact sessionInvariant_cancel s' ih
    | completed rid => exact sessionInvariant_completed s' rid ih
    | transcription rid text sa w => exact sessionInvariant_transcription s' rid text sa w ih
    | errorSignal rid msg => exact sessionInvariant_error s' rid msg ih
    | cleanupCall => simp [applyStep, cleanup, sessionInvariant]
    | setDialog d => simpa [applyStep, setRecordingDialog, sessionInvariant] using ih

/-- Claim C3: `startRecording` succeeds only when the state is idle and no
recording id is held; while a session is live (non-null id or non-idle
state) a start call returns false and leaves the manager unchanged, so at
most one session is live at a time. -/
theorem C3_single_active_session (s : RSM) (hs : Reachable s)
    (settings : RecSettings) (w p : Bool) (r : Option String) :
    ((s.currentRecordingId ≠ none ∨ s.recordingState ≠ RecState.idle) →
      startRecording s settings w p r = (false, s)) ∧
    ((startRecording s settings w p r).1 = true →
      s.currentRecordingId = none ∧ s.recordingState = RecState.idle) := by
  have inv := reachable_sessionInvariant s hs
  constructor
  · intro hlive
    have hguard : truthyId s.currentRecordingId = true ∨ s.recordingState ≠ RecState.idle := by
      rcases hlive with hid | hst
      · right
        rcases inv.2 hid with h | h | h <;> simp [h]
      · exact Or.inr hst
    unfold startRecording
    rw [if_pos hguard]
  · intro hok
    by_cases hguard : truthyId s.currentRecordingId = true ∨ s.recordingState ≠ RecState.idle
    · unfold startRecording at hok
      rw [if_pos hguard] at hok
      simp at hok
    · push_neg at hguard
      have hidle : s.recordingState = RecState.idle := hguard.2
      have hid : s.currentRecordingId = none := by
        rcases hcur : s.currentRecordingId with _ | a
        · rfl
        · rcases inv.2 (by simp [hcur]) with h | h | h <;> rw [hidle] at h <;> cases h
      exact ⟨hid, hidle⟩

theorem startedState_reachable : Reachable startedState :=
  Reachable.step initialRSM
    (Step.start { recordingDuration := 60, postRecordingAction := "preview" }
      false true (some "r1")) Reachable.refl

/-- Witness for C3: with session `r1` live, a second start call is refused
and changes nothing; the successful start from the constructor state
indeed happened from idle with no id. -/
theorem C3_single_active_session_witness :
    startRecording startedState
        { recordingDuration := 60, postRecordingAction := "preview" } false true (some "r2") =
      (false, startedState) ∧
    (initialRSM.currentRecordingId = none ∧ initialRSM.recordingState = RecState.idle) := by
  refine ⟨(C3_single_active_session startedState startedState_reachable
    { recordingDuration := 60, postRecordingAction := "preview" } false true
    (some "r2")).1 (Or.inl (by decide)), ?_⟩
  exact (C3_single_active_session initialRSM Reachable.refl
    { recordingDuration := 60, postRecordingAction := "preview" } false true
    (some "r1")).2 (by decide)

theorem stopFailedState_reachable : Reachable stopFailedState :=
  Reachable.step startedState (Step.stop false) startedState_reachable

/-- Counterexample to claim C4 as stated: after a failed stop request the
machine is in a reachable state outside recording/processing (namely
error) that still holds the recording id `r1`, so non-null id is not
equivalent to being in recording or processing. -/
theorem C4_counterexample :
    Reachable stopFailedState ∧
    stopFailedState.recordingState = RecState.error ∧
    stopFailedState.recordingState ≠ RecState.recording ∧
    stopFailedState.recordingState ≠ RecState.processing ∧
    stopFailedState.currentRecordingId = some "r1" :=
  ⟨stopFailedState_reachable, by decide, by decide, by decide, by decide⟩

/-- Claim C4 (amended): in every reachable state, recording or processing
imply a non-null recording id, and a non-null recording id implies the
state is recording, processing or error - the error state reached through
a failed stop request retains the id; every other state has a null id. -/
theorem C4_session_id_invariant (s : RSM) (h : Reachable s) :
    ((s.recordingState = RecState.recording ∨ s.recordingState = RecState.processing) →
      s.currentRecordingId ≠ none) ∧
    (s.currentRecordingId ≠ none →
      (s.recordingState = RecState.recording ∨ s.recordingState = RecState.processing ∨
       s.recordingState = RecState.error)) :=
  reachable_sessionInvariant s h

/-- Witness for the amended C4 at the reachable stop-failure state. -/
theorem C4_session_id_invariant_witness :
    stopFailedState.recordingState = RecState.recording ∨
    stopFailedState.recordingState = RecState.processing ∨
    stopFailedState.recordingState = RecState.error :=
  (C4_session_id_invariant stopFailedState stopFailedState_reachable).2 (by decide)

/-- Counterexample to claim C5 as stated: the session was started on
Wayland with configured `type_and_copy`, so the effective action resolved
at session start is `copy_only` - an automatic action. Yet when the
transcription arrives, the preview-versus-auto decision is recomputed
from the configured action and the Wayland capability reported AT THAT
MOMENT: reported Wayland gives a preview-type result, reported non-Wayland
gives `service_handled` - the decision is not frozen at session start. -/
theorem C5_counterexample :
    startRequestOf { recordingDuration := 60, postRecordingAction := "type_and_copy" } true =
      { recordingDuration := 60, action := "copy_only" } ∧
    tacProcessing.lastRecordingSettings =
      some { recordingDuration := 60, postRecordingAction := "type_and_copy" } ∧
    (handleTranscriptionReady tacProcessing "r1" "hello" "type_and_copy" true).1.action =
      "createPreview" ∧
    (handleTranscriptionReady tacProcessing "r1" "hello" "type_and_copy" false).1.action =
      "service_handled" :=
  ⟨by decide, by decide, by decide, by decide⟩

/-- Claim C5 (amended): at session start on Wayland the configured
`type_and_copy` resolves to `copy_only` and `type_only` to `preview` in
the issued start request, and the configured action is stored for the
session; but only the configured action is frozen - when the
transcription arrives, the preview-versus-auto decision is recomputed
from the stored configured action and the environment capability as
reported at that moment, so it can change if the capability is reported
differently mid-session. -/
theorem C5_effective_action (s : RSM) (st : RecSettings) (rid text sa : String) (w2 : Bool)
    (hacc : s.isCancelled = false ∧ some rid = s.currentRecordingId ∧
      s.recordingState ∈ [RecState.processing] ∧
      signalKey rid "transcription" ∉ s.handledSignals)
    (hset : s.lastRecordingSettings = some st)
    (hne : ¬ st.postRecordingAction = "")
    (htext : ¬ (text = "" ∨ (jsTrim text).length = 0)) :
    (resolveEffectiveAction true "type_and_copy" = "copy_only" ∧
     resolveEffectiveAction true "type_only" = "preview") ∧
    ((handleTranscriptionReady s rid text sa w2).1.action = "service_handled" ↔
      shouldShowPreviewFor st.postRecordingAction w2 = false) ∧
    (shouldShowPreviewFor st.postRecordingAction w2 = true →
      (handleTranscriptionReady s rid text sa w2).1.action = "preview" ∨
      (handleTranscriptionReady s rid text sa w2).1.action = "createPreview") := by
  refine ⟨⟨by decide, by decide⟩, ?_, ?_⟩ <;>
  · simp only [handleTranscriptionReady, validateSignal_eq]
    rw [if_pos hacc]
    simp only [if_neg htext, hset, if_neg hne]
    by_cases hsp : shouldShowPreviewFor st.postRecordingAction w2 = true
    · rcases hdl : s.recordingDialog with _ | d
      · simp [hsp, hdl]
      · by_cases hpv : d.hasShowPreview = true <;> simp [hsp, hdl, hpv]
    · simp only [Bool.not_eq_true] at hsp
      simp [hsp]

/-- Witness for the amended C5 at the concrete Wayland session: with the
capability reported absent at transcription time, the result is handed to
the service, matching the recomputed decision. -/
theorem C5_effective_action_witness :
    (handleTranscriptionReady tacProcessing "r1" "hello" "type_and_copy" false).1.action =
      "service_handled" :=
  (C5_effective_action tacProcessing
    { recordingDuration := 60, postRecordingAction := "type_and_copy" }
    "r1" "hello" "type_and_copy" false
    (by refine ⟨by decide, by decide, by decide, by decide⟩)
    (by decide) (by decide) (by decide)).2.1.mpr (by decide)

/-- Counterexample to claim C6 as stated: cancelling live session `r1`
returns the machine to idle but leaves the cancelled flag TRUE - the
cancellation path does not clear `cancelled` on reaching idle. -/
theorem C6_counterexample :
    (cancelRecording startedState).1 = true ∧
    (cancelRecording startedState).2.recordingState = RecState.idle ∧
    (cancelRecording startedState).2.isCancelled = true :=
  ⟨by decide, by decide, by decide⟩

/-- Claim C6 (amended): every path back to idle clears the recording id,
but the cancellation path deliberately KEEPS `cancelled = true` (so that
in-flight notifications stay suppressed) - the flag is only cleared by
the next session start or by `cleanup`; the error and empty-transcript
paths clear the id (or change nothing when the signal is rejected), and
`cleanup` resets every session field including the cancelled flag and the
stored settings. The manager stores no transcript or error payload at
all, so there is no transcript/errorDetail field to clear. -/
theorem C6_idle_reset (s : RSM) (h : truthyId s.currentRecordingId = true) :
    ((cancelRecording s).2.currentRecordingId = none ∧
     (cancelRecording s).2.recordingState = RecState.idle ∧
     (cancelRecording s).2.isCancelled = true) ∧
    (cleanup s = { currentRecordingId := none, recordingDialog := none,
                   lastRecordingSettings := none, isCancelled := false,
                   handledSignals := [], recordingState := RecState.idle }) ∧
    (∀ rid msg, handleRecordingError s rid msg = s ∨
      ((handleRecordingError s rid msg).currentRecordingId = none ∧
       (handleRecordingError s rid msg).recordingState = RecState.idle)) ∧
    (∀ rid sa w, (handleTranscriptionReady s rid "" sa w).2 = s ∨
      ((handleTranscriptionReady s rid "" sa w).2.currentRecordingId = none ∧
       (handleTranscriptionReady s rid "" sa w).2.recordingState = RecState.idle)) := by
  refine ⟨?_, rfl, ?_, ?_⟩
  · simp [cancelRecording, h, cancelFinish, cancelMark]
  · intro rid msg
    by_cases hacc : (s.isCancelled = false ∧ some rid = s.currentRecordingId ∧
        s.recordingState ∈ [RecState.recording, RecState.processing] ∧
        signalKey rid "error" ∉ s.handledSignals)
    · right
      simp only [handleRecordingError, validateSignal_eq]
      rw [if_pos hacc]
      simp
    · left
      simp only [handleRecordingError, validateSignal_eq, if_neg hacc]
  · intro rid sa w
    by_cases hacc : (s.isCancelled = false ∧ some rid = s.currentRecordingId ∧
        s.recordingState ∈ [RecState.processing] ∧
        signalKey rid "transcription" ∉ s.handledSignals)
    · right
      simp only [handleTranscriptionReady, validateSignal_eq]
      rw [if_pos hacc]
      simp
    · left
      simp only [handleTranscriptionReady, validateSignal_eq, if_neg hacc]

/-- Witness for the amended C6 at the concrete live session. -/
theorem C6_idle_reset_witness :
    (cancelRecording startedState).2.currentRecordingId = none ∧
    (cancelRecording startedState).2.recordingState = RecState.idle ∧
    (cancelRecording startedState).2.isCancelled = true :=
  (C6_idle_reset startedState (by decide)).1

/-- Counterexample to claim C7 as stated: a validated remote error
notification received while recording leaves the machine in idle, not in
a persistent error state awaiting user acknowledgement - the handler
itself resets the state to idle before returning. -/
theorem C7_counterexample :
    (handleRecordingError startedState "r1" "boom").recordingState = RecState.idle ∧
    (handleRecordingError startedState "r1" "boom").recordingState ≠ RecState.error :=
  ⟨by decide, by decide⟩

/-- Claim C7 (amended): on a validated remote error notification (from
recording or processing) the handler shows the error through the dialog
or a notification, passes through the error state only transiently inside
the same synchronous handler, and returns with the recording id cleared
and the state already reset to idle - no user acknowledgement is involved
in the state machine itself. -/
theorem C7_error_resets_to_idle (s : RSM) (rid msg : String)
    (hacc : s.isCancelled = false ∧ some rid = s.currentRecordingId ∧
      s.recordingState ∈ [RecState.recording, RecState.processing] ∧
      signalKey rid "error" ∉ s.handledSignals) :
    handleRecordingError s rid msg =
      { s with handledSignals := signalKey rid "error" :: s.handledSignals,
               currentRecordingId := none,
               recordingState := RecState.idle } := by
  simp only [handleRecordingError, validateSignal_eq]
  rw [if_pos hacc]

/-- Witness for the amended C7 at the concrete live session. -/
theorem C7_error_resets_to_idle_witness :
    handleRecordingError startedState "r1" "boom" =
      { startedState with handledSignals := [signalKey "r1" "error"]
                          currentRecordingId := none
                          recordingState := RecState.idle } :=
  C7_error_resets_to_idle startedState "r1" "boom"
    ⟨by decide, by decide, by decide, by decide⟩

/-- Claim C8: while recording with a live id, a failing remote stop
request sends the machine to the error state (not back to idle, not
staying in recording) and the call returns false; a succeeding stop
request sends it to processing and returns true. -/
theorem C8_stop_outcome (s : RSM)
    (h1 : truthyId s.currentRecordingId = true)
    (h2 : s.recordingState = RecState.recording) :
    stopRecording s false = (false, { s with recordingState := RecState.error }) ∧
    stopRecording s true = (true, { s with recordingState := RecState.processing }) := by
  have hg : ¬ (¬ truthyId s.currentRecordingId = true ∨
      s.recordingState ≠ RecState.recording) := by
    simp [h1, h2]
  constructor <;> (unfold stopRecording; rw [if_neg hg]) <;> simp

/-- Witness for C8 at the concrete live session. -/
theorem C8_stop_outcome_witness :
    stopRecording startedState false =
      (false, { startedState with recordingState := RecState.error }) ∧
    stopRecording startedState true =
      (true, { startedState with recordingState := RecState.processing }) :=
  C8_stop_outcome startedState (by decide) (by decide)

/-- Claim C9: when the ownership signal reports no owner for the remote
endpoint, the UI coordinator is forced back to idle from any state
(including mid-recording), with the timer removed, the dialog closed and
the session fields (recording id, transcribed text, error message, timing
data) all reset - no user action is involved. -/
theorem C9_liveness_reset (u : UICoordinatorState) (owner : Option String)
    (h : ownerFalsy owner = true) :
    onNameOwnerChanged owner u =
      { currentState := UIState.idle
        currentRecordingId := none
        transcribedText := ""
        errorMessage := ""
        recordingStartTime := none
        maxDuration := 0
        recordingTimerInterval := none
        modalDialogOpen := false } := by
  unfold onNameOwnerChanged
  rw [if_pos h]
  simp only [forceReset]
  split_ifs <;> simp_all

/-- Witness for C9 at a concrete mid-recording coordinator state with an
active countdown timer and an open modal dialog. -/
theorem C9_liveness_reset_witness :
    onNameOwnerChanged none
        { currentState := UIState.recording
          currentRecordingId := some "r1"
          transcribedText := "t"
          errorMessage := "e"
          recordingStartTime := some 100
          maxDuration := 60
          recordingTimerInterval := some 7
          modalDialogOpen := true } =
      { currentState := UIState.idle
        currentRecordingId := none
        transcribedText := ""
        errorMessage := ""
        recordingStartTime := none
        maxDuration := 0
        recordingTimerInterval := none
        modalDialogOpen := false } :=
  C9_liveness_reset _ none (by decide)

/-- Claim C10: every `handleTranscriptionReady` call returns one of the
four actions ignored / preview / createPreview / service_handled; the
returned text is null exactly when the action is ignored, which happens
exactly when the Signal Guard rejects the notification or the text is
empty or whitespace-only; otherwise the returned text is the incoming
text; and the controller performs no extension-local text handling on a
service_handled result. -/
theorem C10_transcription_result (s : RSM) (rid text sa : String) (w : Bool) :
    ((handleTranscriptionReady s rid text sa w).1.action = "ignored" ∨
     (handleTranscriptionReady s rid text sa w).1.action = "preview" ∨
     (handleTranscriptionReady s rid text sa w).1.action = "createPreview" ∨
     (handleTranscriptionReady s rid text sa w).1.action = "service_handled") ∧
    ((handleTranscriptionReady s rid text sa w).1.text = none ↔
     (handleTranscriptionReady s rid text sa w).1.action = "ignored") ∧
    ((handleTranscriptionReady s rid text sa w).1.action = "ignored" ↔
      ((validateSignal s rid "transcription" [RecState.processing]).1 = false ∨
       text = "" ∨ (jsTrim text).length = 0)) ∧
    ((handleTranscriptionReady s rid text sa w).1.text ≠ none →
     (handleTranscriptionReady s rid text sa w).1.text = some text) ∧
    ((handleTranscriptionReady s rid text sa w).1.action = "service_handled" →
      controllerTranscriptionDispatch (handleTranscriptionReady s rid text sa w).1 =
        ControllerAction.noAction) := by
  by_cases hacc : (s.isCancelled = false ∧ some rid = s.currentRecordingId ∧
      s.recordingState ∈ [RecState.processing] ∧
      signalKey rid "transcription" ∉ s.handledSignals)
  · have hv : (validateSignal s rid "transcription" [RecState.processing]).1 = true := by
      rw [validateSignal_eq, if_pos hacc]
    simp only [handleTranscriptionReady, validateSignal_eq]
    rw [if_pos hacc]
    by_cases hempty : text = "" ∨ (jsTrim text).length = 0
    · simp [hempty, hv]
    · simp only [if_neg hempty]
      by_cases hsp : shouldShowPreviewFor
          (match s.lastRecordingSettings with
            | some st => if st.postRecordingAction = "" then sa else st.postRecordingAction
            | none => sa) w = true
      · simp only [hsp]
        rcases hdl : s.recordingDialog with _ | d
        · simp [hdl, hv, hempty, controllerTranscriptionDispatch]
        · by_cases hpv : d.hasShowPreview = true <;>
            simp [hdl, hpv, hv, hempty, controllerTranscriptionDispatch]
      · simp [hsp, hv, hempty, controllerTranscriptionDispatch]
  · have hv : (validateSignal s rid "transcription" [RecState.processing]).1 = false := by
      rw [validateSignal_eq, if_neg hacc]
    simp only [handleTranscriptionReady, validateSignal_eq, if_neg hacc]
    simp [hv]

/-- Witness for C10: a concrete accepted transcription with non-empty
text yields the service_handled action carrying the text, and a concrete
rejected one yields ignored with no text. -/
theorem C10_transcription_result_witness :
    ((handleTranscriptionReady tacProcessing "r1" "hello" "x" false).1.action =
      "service_handled" →
      controllerTranscriptionDispatch
          (handleTranscriptionReady tacProcessing "r1" "hello" "x" false).1 =
        ControllerAction.noAction) ∧
    ((handleTranscriptionReady initialRSM "r1" "hello" "x" false).1.action = "ignored" ↔
      ((validateSignal initialRSM "r1" "transcription" [RecState.processing]).1 = false ∨
       "hello" = "" ∨ (jsTrim "hello").length = 0)) :=
  ⟨(C10_transcription_result tacProcessing "r1" "hello" "x" false).2.2.2.2,
   (C10_transcription_result initialRSM "r1" "hello" "x" false).2.2.1⟩

end Speech2Text
